import Mathlib

/-!
Shallow embedding of the salt-formula-glance repository: the state module
src/_states/glanceng.py (functions find_image, image_present, image_import)
and the execution module src/_modules/glanceng.py (functions
validate_image_params, validate_task_params, task_create).

Backend interactions are modelled by environments that fix the value each
backend query returns; the list of backend calls performed is returned
alongside the result. Access to a missing key of a Python dict is modelled
by the error case of Except, mirroring a raised KeyError. Image and task
records are modelled as structures whose Option-typed fields stand for
dict keys the source code tests for membership before use; fields the code
reads unconditionally are modelled as always present.
-/

namespace Glance

/-- Python tri-valued result field of a state return: True, False or None. -/
inductive RVal where
  | t
  | f
  | n
  deriving DecidableEq, Repr

/-- JSON-like value mirroring the nested Python dicts stored in the
changes field of a state return. -/
inductive JVal where
  | s (v : String)
  | b (v : Bool)
  | null
  | obj (fields : List (String × JVal))

/-- A Python dict with string keys, as an insertion-ordered association list. -/
abbrev Dct := List (String × JVal)

/-- Dict lookup, first binding of the key. -/
def getKey : Dct → String → Option JVal
  | [], _ => none
  | (k, v) :: rest, key => if k = key then some v else getKey rest key

/-- Python membership test: key in dict. -/
def hasKey (d : Dct) (k : String) : Bool :=
  (getKey d k).isSome

/-- Dict assignment d[key] = v: replaces in place, else appends. -/
def setKey : Dct → String → JVal → Dct
  | [], key, v => [(key, v)]
  | (k, w) :: rest, key, v =>
      if k = key then (k, v) :: rest else (k, w) :: setKey rest key v

/-- Nested dict assignment d[k1][k2] = v; errors where Python would raise
KeyError (k1 absent) or TypeError (d[k1] not a dict). -/
def setKey2 (d : Dct) (k1 k2 : String) (v : JVal) : Except String Dct :=
  match getKey d k1 with
  | some (JVal.obj d1) => Except.ok (setKey d k1 (JVal.obj (setKey d1 k2 v)))
  | some _ => Except.error "TypeError"
  | none => Except.error ("KeyError: " ++ k1)

/-- Nested dict assignment d[k1][k2][k3] = v, raising like setKey2. -/
def setKey3 (d : Dct) (k1 k2 k3 : String) (v : JVal) : Except String Dct :=
  match getKey d k1 with
  | some (JVal.obj d1) =>
      match setKey2 d1 k2 k3 v with
      | Except.ok d1x => Except.ok (setKey d k1 (JVal.obj d1x))
      | Except.error e => Except.error e
  | some _ => Except.error "TypeError"
  | none => Except.error ("KeyError: " ++ k1)

/-- Nested dict read d[k1][k2][k3], none when any step is absent. -/
def getPath3 (d : Dct) (k1 k2 k3 : String) : Option JVal :=
  match getKey d k1 with
  | some (JVal.obj d1) =>
      match getKey d1 k2 with
      | some (JVal.obj d2) => getKey d2 k3
      | _ => none
  | _ => none

/-- Observed image record returned by the backend. The status and checksum
keys are Option because the source tests them for membership; id, name,
visibility and the protected flag are read unconditionally. The source key
named protected is called prot here because protected is a Lean keyword. -/
structure Image where
  id : String
  name : String
  status : Option String
  visibility : String
  prot : Bool
  checksum : Option String
  deriving DecidableEq, Repr

/-- Observed task record: id plus the optional status key. -/
structure Task where
  id : String
  status : Option String
  deriving DecidableEq, Repr

/-- Outcome of one backend glance.image_list call: the (name-filtered)
image list, or an Unauthorized exception from either client library.
The dict-shaped responses the source normalizes at lines 56 to 59 of the
state module are embedded after that normalization, as the value list. -/
inductive ListResult where
  | ok (images : List Image)
  | kstoneUnauth
  | glanceUnauth

/-- First component of the find_image return: an image dict (truthy),
None, or False. -/
inductive FindRes where
  | img (i : Image)
  | nf
  | fls

/-- The helper find_image of the state module (lines 41 to 68): classifies
the image_list outcome into found-one, none and False (more than one match
or Unauthorized), with the message the source builds. -/
def find_image (name : String) (r : ListResult) : FindRes × String :=
  match r with
  | ListResult.kstoneUnauth => (FindRes.fls, "keystoneclient: Unauthorized")
  | ListResult.glanceUnauth => (FindRes.fls, "glanceclient: Unauthorized")
  | ListResult.ok images =>
      match images with
      | [] => (FindRes.nf, "No image with name \"" ++ name ++ "\"")
      | [i] => (FindRes.img i, "Found image " ++ name)
      | _ :: _ :: _ => (FindRes.fls, "Found more than one image with given name")

/-- The loop condition guard of the poll in image_present, line 147:
status in image and image status in acceptable. -/
def statusAcceptable (image : Image) (acceptable : List String) : Bool :=
  match image.status with
  | some s => acceptable.contains s
  | none => false

/-- Lines 100 to 103 of image_present: defaulting of wait_for from the
checksum argument. -/
def effectiveWaitFor (wait_for checksum : Option String) : Option String :=
  if wait_for = none ∧ checksum = none then some "saving"
  else if wait_for = none ∧ checksum ≠ none then some "active"
  else wait_for

/-- Lines 107 to 111 of image_present: pop list heads until the first
element equals wait_for or one element remains. -/
def popUntil (wait_for : Option String) : List String → List String
  | [] => []
  | [x] => [x]
  | x :: y :: rest =>
      if some x = wait_for then x :: y :: rest else popUntil wait_for (y :: rest)

/-- The acceptable status list of image_present (lines 99 to 111). -/
def computeAcceptable (wait_for checksum : Option String) : List String :=
  popUntil (effectiveWaitFor wait_for checksum) ["queued", "saving", "active"]

/-- Python repr of a list of strings, as used by format at line 164. -/
def pyStrList (l : List String) : String :=
  "[" ++ String.intercalate ", " (l.map (fun s => "\x27" ++ s ++ "\x27")) ++ "]"

/-- Python str of a bool. -/
def fmtBool (b : Bool) : String :=
  if b then "True" else "False"

/-- Python str.startswith test, written as character-list prefix
comparison so that it evaluates by kernel reduction. -/
def strStartsWith (s p : String) : Bool :=
  p.data.isPrefixOf s.data

/-- Python str of an optional string, None when absent. -/
def fmtOptStr : Option String → String
  | none => "None"
  | some s => s

/-- The protected argument of image_present: None, a bool, or a value of
some other type (its Python str carried for message formatting). -/
inductive ProtParam where
  | noneP
  | pbool (b : Bool)
  | nonBool (reprS : String)
  deriving DecidableEq, Repr

/-- Python str of the protected argument. -/
def fmtProt : ProtParam → String
  | ProtParam.noneP => "None"
  | ProtParam.pbool b => fmtBool b
  | ProtParam.nonBool r => r

/-- Backend operations a state function can invoke. -/
inductive Call where
  | imageList
  | imageCreate
  | imageUpdate
  | imageShow
  | taskCreate
  | taskList
  deriving DecidableEq, Repr

/-- Backend create or update operations, the ones dry-run must suppress. -/
def isWriteCall : Call → Bool
  | Call.imageCreate => true
  | Call.imageUpdate => true
  | Call.taskCreate => true
  | _ => false

/-- The state return record: name, changes, result, comment. -/
structure Ret where
  name : String
  changes : Dct
  result : RVal
  comment : String

/-- The result value the source assigns on a failed check: False in real
mode, None under the test flag. -/
def failRes (test : Bool) : RVal :=
  if test then RVal.n else RVal.f

/-- Arguments of image_present that the control flow reads. The profile
and disk_format arguments are pass-through opaque values and are omitted;
visibility none stands for a falsy value (None or the empty string is
covered by the empty-string case). -/
structure PresentArgs where
  name : String
  visibility : Option String
  prot : ProtParam
  checksum : Option String
  location : Option String
  wait_for : Option String
  timeout : Int

/-- Environment fixing every backend response image_present can observe:
the test flag, the initial image_list outcome, the image_create result,
the image_list outcome of each poll iteration, and the image_update and
image_show results. -/
structure Env where
  test : Bool
  list0 : ListResult
  created : Image
  polls : Nat → ListResult
  updated : Image
  shown : Image

/-- Exit of the creation poll loop of image_present (lines 146 to 160):
either the loop ended (by break or timer expiry) with a final timer and
image, or a re-lookup did not yield exactly one image. -/
inductive PollRes where
  | done (timer : Int) (image : Image)
  | vanished (msg : String)

/-- The creation poll loop of image_present, lines 146 to 160: while the
timer is positive, break once the status is acceptable, else deduct 5,
sleep, re-look the image up, and stop hard when the lookup does not return
exactly one image. The second component counts re-lookups performed. -/
def pollLoop (acceptable : List String) (name : String) (polls : Nat → ListResult)
    (timer : Int) (image : Image) (k : Nat) : PollRes × Nat :=
  if _h : timer ≤ 0 then (PollRes.done timer image, 0)
  else if statusAcceptable image acceptable then (PollRes.done timer image, 0)
  else
    match find_image name (polls k) with
    | (FindRes.img i, _) =>
        let r := pollLoop acceptable name polls (timer - 5) i (k + 1)
        (r.1, r.2 + 1)
    | (FindRes.nf, m) => (PollRes.vanished m, 1)
    | (FindRes.fls, m) => (PollRes.vanished m, 1)
  termination_by timer.toNat
  decreasing_by omega

/-- Lines 180 to 181 of image_present: if the name is a key of changes,
stamp the observed status into changes under name, new; the status read is
unguarded and raises on a record without a status key. -/
def statusStamp (name : String) (ret : Ret) (image : Image) : Except String Ret :=
  if hasKey ret.changes name then
    match image.status with
    | none => Except.error "KeyError: status"
    | some s =>
        match setKey3 ret.changes name "new" "status" (JVal.s s) with
        | Except.ok d => Except.ok { ret with changes := d }
        | Except.error e => Except.error e
  else Except.ok ret

/-- Lines 189 to 206 of image_present: the re-check after the possibly
suppressed update call; image2 is the record the re-check sees, old_value
the visibility observed before it, and cs the calls made for it. A
persisting mismatch downgrades the result and appends a line; a repaired
mismatch records old and new under the top-level keys new and old of
changes (exactly as the source writes them at lines 199 to 206). -/
def visibilityRecheck (test : Bool) (v : String) (old_value : String) (ret : Ret)
    (image2 : Image) (cs : List Call) : Except String (Ret × Image) × List Call :=
  if image2.visibility ≠ v then
    (Except.ok ({ ret with
        result := failRes test,
        comment := ret.comment ++ "\"visibility\" is " ++ image2.visibility ++
          ", should be " ++ v ++ ".\n" }, image2), cs)
  else
    match (if hasKey ret.changes "new" then
        setKey2 ret.changes "new" "visibility" (JVal.s v)
      else
        Except.ok (setKey ret.changes "new" (JVal.obj [("visibility", JVal.s v)]))) with
    | Except.error e => (Except.error e, cs)
    | Except.ok d1 =>
        match (if hasKey d1 "old" then
            setKey2 d1 "old" "visibility" (JVal.s old_value)
          else
            Except.ok (setKey d1 "old" (JVal.obj [("visibility", JVal.s old_value)]))) with
        | Except.error e => (Except.error e, cs)
        | Except.ok d2 => (Except.ok ({ ret with changes := d2 }, image2), cs)

/-- The visibility block of image_present, lines 183 to 209: skipped on a
falsy argument; on mismatch issue an update (suppressed under test) and
re-check through visibilityRecheck; on a match append a confirmation. -/
def visibilityCheck (test : Bool) (visibility : Option String) (updated : Image)
    (ret : Ret) (image : Image) : Except String (Ret × Image) × List Call :=
  match visibility with
  | none => (Except.ok (ret, image), [])
  | some v =>
      if v = "" then (Except.ok (ret, image), [])
      else if image.visibility ≠ v then
        if test = false then
          visibilityRecheck test v image.visibility ret updated [Call.imageUpdate]
        else
          visibilityRecheck test v image.visibility ret image []
      else
        (Except.ok ({ ret with
            comment := ret.comment ++ "\"visibility\" is correct (" ++ v ++ ").\n" },
          image), [])

/-- The protected block of image_present, lines 210 to 220: a non-bool
argument or a differing bool downgrades the result and appends a line, a
matching bool appends a confirmation, None skips the check. -/
def protCheck (test : Bool) (prot : ProtParam) (ret : Ret) (image : Image) : Ret :=
  match prot with
  | ProtParam.noneP => ret
  | ProtParam.pbool b =>
      if Bool.xor image.prot b then
        { ret with
            result := failRes test,
            comment := ret.comment ++ "\"protected\" is " ++ fmtBool image.prot ++
              ", should be " ++ fmtProt (ProtParam.pbool b) ++ ".\n" }
      else
        { ret with comment := ret.comment ++ "\"protected\" is correct (" ++
            fmtProt (ProtParam.pbool b) ++ ").\n" }
  | ProtParam.nonBool r =>
      { ret with
          result := failRes test,
          comment := ret.comment ++ "\"protected\" is " ++ fmtBool image.prot ++
            ", should be " ++ fmtProt (ProtParam.nonBool r) ++ ".\n" }

/-- Lines 223 to 242 of image_present, the comparison on an active image:
image2 is the record after the optional image_show refresh and cs the
calls made for it; a missing checksum key raises the status read inside
the message when the refreshed record has no status key. -/
def activeChecksumV1 (test : Bool) (c : String) (ret : Ret) (image2 : Image)
    (cs : List Call) : Except String Ret × List Call :=
  match image2.checksum with
  | none =>
      match image2.status with
      | none => (Except.error "KeyError: status", cs)
      | some s2 =>
          (Except.ok { ret with
            result := failRes test,
            comment := ret.comment ++ "No checksum available for this image:\n" ++
              "\tImage has status \"" ++ s2 ++ "\"." }, cs)
  | some x =>
      if x ≠ c then
        (Except.ok { ret with
          result := failRes test,
          comment := ret.comment ++ "\"checksum\" is " ++ x ++ ", should be " ++
            c ++ ".\n" }, cs)
      else
        (Except.ok { ret with
          comment := ret.comment ++ "\"checksum\" is correct (" ++ c ++ ").\n" }, cs)

/-- The checksum block of image_present, lines 221 to 245: skipped unless
the record has a status key and a truthy checksum was requested; when the
status is active the checksum is compared through activeChecksumV1 (after
one image_show refresh if the key is absent); when the status is saving or
queued only an informational line is appended. -/
def presentChecksumCheck (test : Bool) (checksum : Option String) (shown : Image)
    (ret : Ret) (image : Image) : Except String Ret × List Call :=
  match image.status, checksum with
  | some s, some c =>
      if c = "" then (Except.ok ret, [])
      else if s = "active" then
        if image.checksum = none then activeChecksumV1 test c ret shown [Call.imageShow]
        else activeChecksumV1 test c ret image []
      else if s = "saving" ∨ s = "queued" then
        (Except.ok { ret with
          comment := ret.comment ++ "Checksum won\x27t be verified as image " ++
            "hasn\x27t reached\n\t \"status=active\" yet.\n" }, [])
      else (Except.ok ret, [])
  | _, _ => (Except.ok ret, [])

/-- Lines 179 to 245 of image_present: the status stamp followed by the
visibility, protected and checksum checks, in source order. -/
def presentChecks (test : Bool) (name : String) (visibility : Option String)
    (prot : ProtParam) (checksum : Option String) (updated shown : Image)
    (ret : Ret) (image : Image) : Except String Ret × List Call :=
  match statusStamp name ret image with
  | Except.error e => (Except.error e, [])
  | Except.ok ret1 =>
      match visibilityCheck test visibility updated ret1 image with
      | (Except.error e, cs) => (Except.error e, cs)
      | (Except.ok (ret2, image2), cs) =>
          match presentChecksumCheck test checksum shown
              (protCheck test prot ret2 image2) image2 with
          | (Except.error e, cs2) => (Except.error e, cs ++ cs2)
          | (Except.ok ret4, cs2) => (Except.ok ret4, cs ++ cs2)

/-- The state function image_present (state module lines 71 to 247),
transcribed branch for branch; the second component is the trace of
backend calls made. Lines 161 to 165 downgrade the result on timer expiry
with an unacceptable status; the status read there is unguarded and raises
on a record without a status key. -/
def image_present (a : PresentArgs) (env : Env) : Except String Ret × List Call :=
  let ret0 : Ret := ⟨a.name, [], RVal.t, ""⟩
  let acceptable := computeAcceptable a.wait_for a.checksum
  match find_image a.name env.list0 with
  | (FindRes.fls, msg) =>
      (Except.ok { ret0 with result := failRes env.test, comment := msg }, [Call.imageList])
  | (FindRes.img image, _) =>
      match a.location with
      | none =>
          if env.test then
            (Except.ok { ret0 with
                result := RVal.n,
                  comment := "No location to copy image from specified,\n" ++
                    "glance.image_present would not create one" }, [Call.imageList])
          else
            (Except.ok { ret0 with
                result := RVal.f,
                  comment := "No location to copy image from specified,\n" ++
                    "not creating a new image." }, [Call.imageList])
      | some _ =>
          let r := presentChecks env.test a.name a.visibility a.prot a.checksum
            env.updated env.shown ret0 image
          (r.1, Call.imageList :: r.2)
  | (FindRes.nf, _) =>
      match a.location with
      | none =>
          if env.test then
            (Except.ok { ret0 with
                result := RVal.n,
                  comment := "No location to copy image from specified,\n" ++
                    "glance.image_present would not create one" }, [Call.imageList])
          else
            (Except.ok { ret0 with
                result := RVal.f,
                  comment := "No location to copy image from specified,\n" ++
                    "not creating a new image." }, [Call.imageList])
      | some loc =>
          if env.test then
            (Except.ok { ret0 with
                result := RVal.n,
                  comment := "glance.image_present would create an image from " ++ loc },
              [Call.imageList])
          else
            let image := env.created
            let ret1 : Ret := { ret0 with changes :=
              [(a.name, JVal.obj [("new", JVal.obj [("id", JVal.s image.id)]),
                ("old", JVal.null)])] }
            let pr := pollLoop acceptable a.name env.polls a.timeout image 0
            let base := [Call.imageList, Call.imageCreate] ++
              List.replicate pr.2 Call.imageList
            match pr.1 with
            | PollRes.vanished vmsg =>
                (Except.ok { ret1 with
                    result := RVal.f,
                      comment := ret1.comment ++ "Created image " ++ a.name ++
                        "  vanished:\n" ++ vmsg }, base)
            | PollRes.done timer img =>
                if timer ≤ 0 then
                  match img.status with
                  | none => (Except.error "KeyError: status", base)
                  | some s =>
                      let ret2 :=
                        if acceptable.contains s then ret1
                        else { ret1 with
                            result := RVal.f,
                              comment := ret1.comment ++
                                "Image didn\x27t reach an acceptable state (" ++
                                pyStrList acceptable ++ ") before timeout:\n" ++
                                "\tLast status was \"" ++ s ++ "\".\n" }
                      let r := presentChecks env.test a.name a.visibility a.prot
                        a.checksum env.updated env.shown ret2 img
                      (r.1, base ++ r.2)
                else
                  let r := presentChecks env.test a.name a.visibility a.prot
                    a.checksum env.updated env.shown ret1 img
                  (r.1, base ++ r.2)

/-- Arguments of image_import that the control flow reads. The profile and
the format and tag arguments are only passed through into the task request
and are omitted; location is Option because its default is None. -/
structure ImportArgs where
  name : String
  location : Option String
  checksum : Option String
  timeout : Int

/-- Environment fixing every backend response image_import can observe:
the test flag, the initial image_list outcome, the task returned by
glanceng.task_create, the glanceng.task_list outcome of each poll
iteration (a dict keyed by task id), the image_list outcome after task
success and the image_show result. -/
structure ImportEnv where
  test : Bool
  list0 : ListResult
  createdTask : Task
  taskLists : Nat → List (String × Task)
  finalList : ListResult
  shown : Image

/-- Lookup of a task id in a task_list response. -/
def getTask : List (String × Task) → String → Option Task
  | [], _ => none
  | (k, t) :: rest, key => if k = key then some t else getTask rest key

/-- Exit of the task poll loop of image_import (lines 336 to 356): the
loop ended (break on success or timer expiry) with a final timer and task,
the task reported failure, or the task id left the task list. -/
inductive TaskPollRes where
  | done (timer : Int) (task : Task)
  | failed
  | vanished

/-- The task poll loop of image_import, lines 336 to 356: while the timer
is positive, break once the status is success, stop hard on failure or
when the task id is no longer listed, else deduct 5, sleep and re-fetch
the task from task_list. The second component counts task_list calls. -/
def taskPoll (taskLists : Nat → List (String × Task)) (task_id : String)
    (timer : Int) (task : Task) (k : Nat) : TaskPollRes × Nat :=
  if _h : timer ≤ 0 then (TaskPollRes.done timer task, 0)
  else if task.status = some "success" then (TaskPollRes.done timer task, 0)
  else if task.status = some "failure" then (TaskPollRes.failed, 0)
  else
    match getTask (taskLists k) task_id with
    | none => (TaskPollRes.vanished, 1)
    | some t =>
        let r := taskPoll taskLists task_id (timer - 5) t (k + 1)
        (r.1, r.2 + 1)
  termination_by timer.toNat
  decreasing_by omega

/-- Lines 377 to 398 of image_import, the comparison on an active image:
image2 is the record after the optional image_show refresh and cs the
calls made for it; same policy as activeChecksumV1 but with the message
texts of image_import. -/
def activeChecksumV2 (test : Bool) (c : String) (ret : Ret) (image2 : Image)
    (cs : List Call) : Except String Ret × List Call :=
  match image2.checksum with
  | none =>
      match image2.status with
      | none => (Except.error "KeyError: status", cs)
      | some s2 =>
          (Except.ok { ret with
            result := failRes test,
            comment := ret.comment ++ "No checksum available for this image:\n" ++
              "Image has status \x27" ++ s2 ++ "\x27." }, cs)
  | some x =>
      if x ≠ c then
        (Except.ok { ret with
          result := failRes test,
          comment := ret.comment ++ "\x27checksum\x27 is " ++ x ++ ", should be " ++
            c ++ ".\n" }, cs)
      else
        (Except.ok { ret with
          comment := ret.comment ++ "\x27checksum\x27 is correct (" ++ c ++ ").\n" }, cs)

/-- The checksum block of image_import, lines 375 to 402: same policy as
the block of image_present but with the message texts of image_import;
here the status read at line 376 is unguarded and raises on a record
without a status key. -/
def checksumCheckV2 (test : Bool) (checksum : Option String) (shown : Image)
    (ret : Ret) (image : Image) : Except String Ret × List Call :=
  match checksum with
  | none => (Except.ok ret, [])
  | some c =>
      if c = "" then (Except.ok ret, [])
      else
        match image.status with
        | none => (Except.error "KeyError: status", [])
        | some s =>
            if s = "active" then
              if image.checksum = none then activeChecksumV2 test c ret shown [Call.imageShow]
              else activeChecksumV2 test c ret image []
            else if s = "saving" ∨ s = "queued" then
              (Except.ok { ret with
                comment := ret.comment ++
                  "Checksum will not be verified as image has not " ++
                  "reached \x27status=active\x27 yet.\n" }, [])
            else (Except.ok ret, [])

/-- Lines 364 to 403 of image_import: after task success, re-look the
image up; a missing or ambiguous image downgrades the result to False with
the lookup message; otherwise the image id and status are stamped into
changes under name, new (the status read raises on a record without a
status key), the success comment is assigned and the checksum block runs. -/
def finalImageCheck (test : Bool) (name : String) (checksum : Option String)
    (finalList : ListResult) (shown : Image) (task_id : String) (ret : Ret) :
    Except String Ret × List Call :=
  match find_image name finalList with
  | (FindRes.img image, _) =>
      match setKey3 ret.changes name "new" "image_id" (JVal.s image.id) with
      | Except.error e => (Except.error e, [Call.imageList])
      | Except.ok d1 =>
          match image.status with
          | none => (Except.error "KeyError: status", [Call.imageList])
          | some st =>
              match setKey3 d1 name "new" "image_status" (JVal.s st) with
              | Except.error e => (Except.error e, [Call.imageList])
              | Except.ok d2 =>
                  let ret2 : Ret := { ret with
                    changes := d2,
                    comment := "Image " ++ image.id ++
                      " was successfully created by task " ++ task_id }
                  let r := checksumCheckV2 test checksum shown ret2 image
                  (r.1, Call.imageList :: r.2)
  | (FindRes.nf, m2) =>
      (Except.ok { ret with result := RVal.f, comment := m2 }, [Call.imageList])
  | (FindRes.fls, m2) =>
      (Except.ok { ret with result := RVal.f, comment := m2 }, [Call.imageList])

/-- The state function image_import (state module lines 250 to 404),
transcribed branch for branch; the second component is the trace of
backend calls made. The vanished comment at lines 352 to 353 appends to
the initial already-exists comment and reuses the message of the initial
image lookup, exactly as the source does; the status read at line 357
raises on a task record without a status key when the timer has expired. -/
def image_import (a : ImportArgs) (env : ImportEnv) : Except String Ret × List Call :=
  let ret0 : Ret := ⟨a.name, [], RVal.t,
    "Image \"" ++ a.name ++ "\" already exists"⟩
  match find_image a.name env.list0 with
  | (FindRes.img _, _) => (Except.ok ret0, [Call.imageList])
  | (FindRes.fls, msg) =>
      (Except.ok { ret0 with result := failRes env.test, comment := msg },
        [Call.imageList])
  | (FindRes.nf, msg) =>
      if env.test then
        (Except.ok { ret0 with
          result := RVal.n,
          comment := "glanceng.image_import would create an image from " ++
            fmtOptStr a.location }, [Call.imageList])
      else
        let task := env.createdTask
        let task_id := task.id
        let ret1 : Ret := { ret0 with changes :=
          [(a.name, JVal.obj [("new", JVal.obj [("task_id", JVal.s task_id)]),
            ("old", JVal.null)])] }
        let pr := taskPoll env.taskLists task_id a.timeout task 0
        let base := [Call.imageList, Call.taskCreate] ++
          List.replicate pr.2 Call.taskList
        match pr.1 with
        | TaskPollRes.failed =>
            (Except.ok { ret1 with
              result := RVal.f,
              comment := "Task " ++ task_id ++ " has failed" }, base)
        | TaskPollRes.vanished =>
            (Except.ok { ret1 with
              result := RVal.f,
              comment := ret1.comment ++ "Created task " ++ task_id ++
                "  vanished:\n" ++ msg }, base)
        | TaskPollRes.done timer task2 =>
            if timer ≤ 0 then
              match task2.status with
              | none => (Except.error "KeyError: status", base)
              | some s =>
                  if s ≠ "success" then
                    (Except.ok { ret1 with
                      result := RVal.f,
                      comment := "Task " ++ task_id ++
                        " did not reach state success before the timeout:\n" ++
                        "Last status was \"" ++ s ++ "\".\n" }, base)
                  else
                    let r := finalImageCheck env.test a.name a.checksum
                      env.finalList env.shown task_id ret1
                    (r.1, base ++ r.2)
            else
              let r := finalImageCheck env.test a.name a.checksum
                env.finalList env.shown task_id ret1
              (r.1, base ++ r.2)

/-- Valid visibility values of the execution module, line 187. -/
def vList : List String := ["public", "private", "shared", "community"]

/-- Valid container formats of the execution module, line 189. -/
def cfList : List String := ["ami", "ari", "aki", "bare", "ovf"]

/-- Valid disk formats of the execution module, lines 191 to 192; the
valid import source formats at lines 228 to 229 are the same list. -/
def dfList : List String :=
  ["ami", "ari", "aki", "vhd", "vmdk", "raw", "qcow2", "vdi", "iso"]

/-- The tags argument of the image-property validator: None, a list, or a
value of another type together with its truthiness and Python repr. -/
inductive TagsParam where
  | noneT
  | tlist (l : List String)
  | nonList (truthy : Bool) (reprS : String)
  deriving DecidableEq, Repr

/-- Image properties passed to the image-property validator, carrying the
effective values after Python keyword defaulting (container_format bare,
disk_format raw, visibility and tags None); extra keyword entries are
ignored by the validator and therefore not modelled. -/
structure ImageProps where
  visibility : Option String
  container_format : String
  disk_format : String
  tags : TagsParam
  deriving DecidableEq, Repr

/-- The helper _validate_image_params of the execution module (lines 184
to 212): enum checks for visibility, container_format and disk_format, and
a type check for a truthy tags value. The error value models a raised
SaltInvocationError with its message. -/
def validate_image_params (p : ImageProps) : Except String Unit := do
  match p.visibility with
  | some v =>
      if v ∈ vList then pure ()
      else throw ("\"visibility\" needs to be one of the following: " ++
        String.intercalate ", " vList)
  | none => pure ()
  if p.container_format ∈ cfList then pure ()
  else throw ("\"container_format\" needs to be one of the following: " ++
    String.intercalate ", " cfList)
  if p.disk_format ∈ dfList then pure ()
  else throw ("\"disk_format\" needs to be one of the following: " ++
    String.intercalate ", " dfList)
  match p.tags with
  | TagsParam.nonList true r =>
      throw ("Incorrect input type for the tags parameter: expected: " ++
        "<class \x27list\x27>, got " ++ r)
  | _ => pure ()

/-- The input_params dict of a task request; each required key of an
imported task is Option to model its possible absence. -/
structure TaskInput where
  import_from : Option String
  import_from_format : Option String
  image_properties : Option ImageProps
  deriving DecidableEq, Repr

/-- The required parameter names an import task is missing, in the order
of the set literal at lines 220 to 221 (Python set iteration order is
implementation defined; no claim depends on the order). -/
def missingParams (p : TaskInput) : List String :=
  (if p.import_from = none then ["import_from"] else []) ++
  (if p.import_from_format = none then ["import_from_format"] else []) ++
  (if p.image_properties = none then ["image_properties"] else [])

/-- The helper _validate_task_params of the execution module (lines 215 to
246): only the import task type is accepted, the three required parameters
must be present, import_from must be a remote http or https location, the
source format must be a known one and the image properties must validate.
The wildcard arm is unreachable because an empty missing list forces all
three parameters present. -/
def validate_task_params (task_type : String) (input_params : TaskInput) :
    Except String Unit := do
  if task_type ∈ ["import"] then pure ()
  else throw ("\x27task_type\x27 must be one of the following: import")
  if task_type = "import" then
    let missing := missingParams input_params
    if missing ≠ [] then
      throw ("Missing the following task parameters for the \x27import\x27 task: " ++
        String.intercalate ", " missing)
    else
      match input_params.import_from, input_params.import_from_format,
          input_params.image_properties with
      | some f, some ff, some props =>
          if ¬ (strStartsWith f "http://" ∨ strStartsWith f "https://") then
            throw "Only non-local sources of image data are supported."
          else if ff ∉ dfList then
            throw ("\x27import_from_format\x27 needs to be one of the following: " ++
              String.intercalate ", " dfList)
          else validate_image_params props
      | _, _, _ => pure ()
  else pure ()

/-- Operations task_create and its callee task_show perform against the
identity service and the catalog backend. -/
inductive ModCall where
  | auth
  | tasksCreateBackend
  | tasksGetBackend
  | schemasGetBackend
  deriving DecidableEq, Repr

/-- Environment for the module function task_create: the backend responses
it observes. Credential handling inside _auth and the schema filtering of
task_show are opaque here: the environment stands for an authenticated
client and the filtered projection task_show returns. -/
structure ModEnv where
  shownTask : Dct

set_option linter.unusedVariables false in
/-- The module function task_create (execution module lines 249 to 265):
it authenticates, submits the task creation to the backend and reads the
task back through task_show, whose own calls are _auth, tasks.get, and
_auth plus schemas.get through image_schema. It performs no validation of
task_type or input_params: _validate_task_params is never invoked, so the
returned trace is the same for every input. -/
def task_create (task_type : String) (input_params : TaskInput) (env : ModEnv) :
    Dct × List ModCall :=
  (env.shownTask,
    [ModCall.auth, ModCall.tasksCreateBackend,
     ModCall.auth, ModCall.tasksGetBackend, ModCall.auth, ModCall.schemasGetBackend])

/-- Lookup after assignment at the same key. -/
theorem getKey_setKey_self (d : Dct) (k : String) (v : JVal) :
    getKey (setKey d k v) k = some v := by
  induction d with
  | nil => simp [setKey, getKey]
  | cons p rest ih =>
      obtain ⟨k1, v1⟩ := p
      by_cases h : k1 = k
      · simp [setKey, getKey, h]
      · simp [setKey, getKey, h, ih]

/-- Lookup after assignment at a different key. -/
theorem getKey_setKey_ne (d : Dct) (k k2 : String) (v : JVal) (h : k ≠ k2) :
    getKey (setKey d k v) k2 = getKey d k2 := by
  induction d with
  | nil => simp [setKey, getKey, h]
  | cons p rest ih =>
      obtain ⟨k1, v1⟩ := p
      by_cases h1 : k1 = k
      · subst h1
        simp [setKey, getKey, h]
      · simp [setKey, getKey, h1, ih]

/-- Characterization of a successful nested assignment. -/
theorem setKey2_ok (d : Dct) (k1 k2 : String) (v : JVal) (d2 : Dct)
    (h : setKey2 d k1 k2 v = Except.ok d2) :
    ∃ d1, getKey d k1 = some (JVal.obj d1) ∧
      d2 = setKey d k1 (JVal.obj (setKey d1 k2 v)) := by
  unfold setKey2 at h
  split at h
  next d1 heq =>
    cases h
    exact ⟨d1, heq, rfl⟩
  · cases h
  · cases h

/-- Characterization of a successful three-level assignment. -/
theorem setKey3_ok (d : Dct) (k1 k2 k3 : String) (v : JVal) (d3 : Dct)
    (h : setKey3 d k1 k2 k3 v = Except.ok d3) :
    ∃ d1 d2, getKey d k1 = some (JVal.obj d1) ∧ getKey d1 k2 = some (JVal.obj d2) ∧
      d3 = setKey d k1 (JVal.obj (setKey d1 k2 (JVal.obj (setKey d2 k3 v)))) := by
  unfold setKey3 at h
  split at h
  next d1 heq =>
    split at h
    next d1x heq2 =>
      cases h
      obtain ⟨d2, hg, he⟩ := setKey2_ok d1 k2 k3 v d1x heq2
      exact ⟨d1, d2, heq, hg, by rw [he]⟩
    · cases h
  · cases h
  · cases h

/-- Top-level lookups other than the assigned key are unchanged by a
successful nested assignment. -/
theorem setKey2_getKey_ne (d : Dct) (k1 k2 : String) (v : JVal) (d2 : Dct)
    (h : setKey2 d k1 k2 v = Except.ok d2) (k : String) (hk : k ≠ k1) :
    getKey d2 k = getKey d k := by
  obtain ⟨d1, hg, he⟩ := setKey2_ok d k1 k2 v d2 h
  rw [he]
  exact getKey_setKey_ne _ _ _ _ (fun hh => hk hh.symm)

/-- Top-level lookups other than the assigned key are unchanged by a
successful three-level assignment. -/
theorem setKey3_getKey_ne (d : Dct) (k1 k2 k3 : String) (v : JVal) (d2 : Dct)
    (h : setKey3 d k1 k2 k3 v = Except.ok d2) (k : String) (hk : k ≠ k1) :
    getKey d2 k = getKey d k := by
  obtain ⟨d1, d1x, hg, hg2, he⟩ := setKey3_ok d k1 k2 k3 v d2 h
  rw [he]
  exact getKey_setKey_ne _ _ _ _ (fun hh => hk hh.symm)

/-- A nested read along k1, k2 at a leaf key other than the assigned one
is unchanged by a successful three-level assignment along k1, k2. -/
theorem setKey3_getPath3_ne (d : Dct) (k1 k2 k3 : String) (v : JVal) (d2 : Dct)
    (h : setKey3 d k1 k2 k3 v = Except.ok d2) (a b : String) (hb : b ≠ k3) :
    getPath3 d2 a k2 b = getPath3 d a k2 b := by
  by_cases ha : a = k1
  · subst ha
    obtain ⟨d1, d1x, hg, hg2, he⟩ := setKey3_ok d a k2 k3 v d2 h
    rw [he]
    unfold getPath3
    simp only [getKey_setKey_self, hg, hg2]
    exact getKey_setKey_ne _ _ _ _ (fun hh => hb hh.symm)
  · have hs := setKey3_getKey_ne d k1 k2 k3 v d2 h a ha
    unfold getPath3
    rw [hs]

/-- Nested reads only depend on the top-level binding of their first key. -/
theorem getPath3_congr (d d2 : Dct) (k1 k2 k3 : String)
    (h : getKey d2 k1 = getKey d k1) : getPath3 d2 k1 k2 k3 = getPath3 d k1 k2 k3 := by
  unfold getPath3
  rw [h]

/-- The poll loop returns at once when the timer is already spent. -/
theorem pollLoop_stop (acc : List String) (name : String) (polls : Nat → ListResult)
    (timer : Int) (image : Image) (k : Nat) (h : timer ≤ 0) :
    pollLoop acc name polls timer image k = (PollRes.done timer image, 0) := by
  rw [pollLoop]
  simp [h]

/-- The poll loop breaks out at once on an acceptable status. -/
theorem pollLoop_break (acc : List String) (name : String) (polls : Nat → ListResult)
    (timer : Int) (image : Image) (k : Nat) (h : ¬ timer ≤ 0)
    (h2 : statusAcceptable image acc = true) :
    pollLoop acc name polls timer image k = (PollRes.done timer image, 0) := by
  rw [pollLoop]
  simp [h, h2]

/-- One iteration of the poll loop on a successful re-lookup. -/
theorem pollLoop_next (acc : List String) (name : String) (polls : Nat → ListResult)
    (timer : Int) (image : Image) (k : Nat) (i : Image) (m : String)
    (h : ¬ timer ≤ 0) (h2 : statusAcceptable image acc = false)
    (h3 : find_image name (polls k) = (FindRes.img i, m)) :
    pollLoop acc name polls timer image k =
      ((pollLoop acc name polls (timer - 5) i (k + 1)).1,
       (pollLoop acc name polls (timer - 5) i (k + 1)).2 + 1) := by
  rw [pollLoop]
  simp [h, h2, h3]

/-- Any mid-poll lookup outcome other than exactly one image stops the
poll loop hard with the lookup message, after a single re-query. -/
theorem pollLoop_vanish (acc : List String) (name : String) (polls : Nat → ListResult)
    (timer : Int) (image : Image) (k : Nat) (r : FindRes) (m : String)
    (h : ¬ timer ≤ 0) (h2 : statusAcceptable image acc = false)
    (h3 : find_image name (polls k) = (r, m)) (h4 : ∀ i, r ≠ FindRes.img i) :
    pollLoop acc name polls timer image k = (PollRes.vanished m, 1) := by
  rw [pollLoop]
  cases r with
  | img i => exact absurd rfl (h4 i)
  | nf => simp [h, h2, h3]
  | fls => simp [h, h2, h3]

/-- The number of re-lookups the poll loop performs is bounded by the
ceiling of the timer divided by the step of 5. -/
theorem pollLoop_queries_le (acc : List String) (name : String)
    (polls : Nat → ListResult) (timer : Int) (image : Image) (k : Nat) :
    (pollLoop acc name polls timer image k).2 ≤ (timer.toNat + 4) / 5 := by
  rw [pollLoop]
  split
  · simp
  · split
    · simp
    · split
      next i m heq =>
        have ih := pollLoop_queries_le acc name polls (timer - 5) i (k + 1)
        simp only []
        omega
      next m heq => omega
      next m heq => omega
  termination_by timer.toNat
  decreasing_by omega

/-- The task poll loop returns at once when the timer is already spent. -/
theorem taskPoll_stop (tls : Nat → List (String × Task)) (task_id : String)
    (timer : Int) (task : Task) (k : Nat) (h : timer ≤ 0) :
    taskPoll tls task_id timer task k = (TaskPollRes.done timer task, 0) := by
  rw [taskPoll]
  simp [h]

/-- A task observed in failure status stops the task poll loop at once,
with no further task_list query. -/
theorem taskPoll_failed (tls : Nat → List (String × Task)) (task_id : String)
    (timer : Int) (task : Task) (k : Nat) (h : ¬ timer ≤ 0)
    (h2 : task.status = some "failure") :
    taskPoll tls task_id timer task k = (TaskPollRes.failed, 0) := by
  rw [taskPoll]
  simp [h, h2]

/-- The number of task_list queries the task poll loop performs is bounded
by the ceiling of the timer divided by the step of 5. -/
theorem taskPoll_queries_le (tls : Nat → List (String × Task)) (task_id : String)
    (timer : Int) (task : Task) (k : Nat) :
    (taskPoll tls task_id timer task k).2 ≤ (timer.toNat + 4) / 5 := by
  rw [taskPoll]
  split
  · simp
  · split
    · simp
    · split
      · simp
      · split
        · omega
        next t heq =>
          have ih := taskPoll_queries_le tls task_id (timer - 5) t (k + 1)
          simp only []
          omega
  termination_by timer.toNat
  decreasing_by omega

theorem strExt2 (s a b : String) : ∃ d, s ++ a ++ b = s ++ d :=
  ⟨a ++ b, by simp only [String.append_assoc]⟩

theorem strExt3 (s a b c : String) : ∃ d, s ++ a ++ b ++ c = s ++ d :=
  ⟨a ++ (b ++ c), by simp only [String.append_assoc]⟩

theorem strExt4 (s a b c e : String) : ∃ d, s ++ a ++ b ++ c ++ e = s ++ d :=
  ⟨a ++ (b ++ (c ++ e)), by simp only [String.append_assoc]⟩

theorem strExt5 (s a b c e f : String) : ∃ d, s ++ a ++ b ++ c ++ e ++ f = s ++ d :=
  ⟨a ++ (b ++ (c ++ (e ++ f))), by simp only [String.append_assoc]⟩

/-- A successful status stamp leaves result and comment unchanged and only
touches the status leaf under name, new of changes. -/
theorem statusStamp_ok (name : String) (ret : Ret) (image : Image) (ret1 : Ret)
    (h : statusStamp name ret image = Except.ok ret1) :
    ret1.result = ret.result ∧ ret1.comment = ret.comment ∧
    (∀ a b, b ≠ "status" → getPath3 ret1.changes a "new" b = getPath3 ret.changes a "new" b) := by
  unfold statusStamp at h
  split at h
  · split at h
    · cases h
    · split at h
      next d hset =>
        cases h
        exact ⟨rfl, rfl, fun a b hb => setKey3_getPath3_ne _ _ _ _ _ _ hset a b hb⟩
      · cases h
  · cases h
    exact ⟨rfl, rfl, fun a b _ => rfl⟩

/-- The visibility re-check returns its calls argument unchanged. -/
theorem visibilityRecheck_calls (test : Bool) (v old_value : String) (ret : Ret)
    (image2 : Image) (cs : List Call) :
    (visibilityRecheck test v old_value ret image2 cs).2 = cs := by
  unfold visibilityRecheck
  split
  · rfl
  · split
    · rfl
    · split <;> rfl

/-- A successful visibility re-check preserves or downgrades the result,
appends to the comment, and touches only the top-level keys new and old of
changes. -/
theorem visibilityRecheck_ok (test : Bool) (v old_value : String) (ret : Ret)
    (image2 : Image) (cs : List Call) (ret2 : Ret) (img3 : Image)
    (h : (visibilityRecheck test v old_value ret image2 cs).1 = Except.ok (ret2, img3)) :
    (ret2.result = ret.result ∨ ret2.result = failRes test) ∧
    (∃ d, ret2.comment = ret.comment ++ d) ∧
    (∀ k, k ≠ "new" → k ≠ "old" → getKey ret2.changes k = getKey ret.changes k) := by
  unfold visibilityRecheck at h
  split at h
  · simp only [Except.ok.injEq, Prod.mk.injEq] at h
    obtain ⟨h1, _⟩ := h
    subst h1
    exact ⟨Or.inr rfl, strExt5 _ _ _ _ _ _, fun k _ _ => rfl⟩
  · split at h
    · simp at h
    next d1 hnew =>
      split at h
      · simp at h
      next d2 hold =>
        simp only [Except.ok.injEq, Prod.mk.injEq] at h
        obtain ⟨h1, _⟩ := h
        subst h1
        refine ⟨Or.inl rfl, ⟨"", by simp⟩, fun k hk1 hk2 => ?_⟩
        have h2 : getKey d2 k = getKey d1 k := by
          split at hold
          · exact setKey2_getKey_ne _ _ _ _ _ hold k hk2
          · cases hold
            exact getKey_setKey_ne _ _ _ _ (fun e => hk2 e.symm)
        have h1x : getKey d1 k = getKey ret.changes k := by
          split at hnew
          · exact setKey2_getKey_ne _ _ _ _ _ hnew k hk1
          · cases hnew
            exact getKey_setKey_ne _ _ _ _ (fun e => hk1 e.symm)
        simp only [h2, h1x]

/-- The calls of the visibility block: at most one image_update, and none
at all under the test flag. -/
theorem visibilityCheck_calls (test : Bool) (v : Option String) (updated : Image)
    (ret : Ret) (image : Image) :
    ((visibilityCheck test v updated ret image).2 = [] ∨
     (visibilityCheck test v updated ret image).2 = [Call.imageUpdate]) ∧
    (test = true → (visibilityCheck test v updated ret image).2 = []) := by
  unfold visibilityCheck
  split
  · simp
  · split
    · simp
    · split
      · split
        next htest =>
          rw [visibilityRecheck_calls]
          exact ⟨Or.inr rfl, fun ht => by rw [ht] at htest; cases htest⟩
        · rw [visibilityRecheck_calls]
          exact ⟨Or.inl rfl, fun _ => rfl⟩
      · simp

/-- A successful visibility block preserves or downgrades the result,
appends to the comment, and touches only the top-level keys new and old
of changes. -/
theorem visibilityCheck_ok (test : Bool) (v : Option String) (updated : Image)
    (ret : Ret) (image : Image) (ret2 : Ret) (image2 : Image)
    (h : (visibilityCheck test v updated ret image).1 = Except.ok (ret2, image2)) :
    (ret2.result = ret.result ∨ ret2.result = failRes test) ∧
    (∃ d, ret2.comment = ret.comment ++ d) ∧
    (∀ k, k ≠ "new" → k ≠ "old" → getKey ret2.changes k = getKey ret.changes k) := by
  unfold visibilityCheck at h
  split at h
  · simp only [Except.ok.injEq, Prod.mk.injEq] at h
    obtain ⟨h1, _⟩ := h
    subst h1
    exact ⟨Or.inl rfl, ⟨"", by simp⟩, fun k _ _ => rfl⟩
  · split at h
    · simp only [Except.ok.injEq, Prod.mk.injEq] at h
      obtain ⟨h1, _⟩ := h
      subst h1
      exact ⟨Or.inl rfl, ⟨"", by simp⟩, fun k _ _ => rfl⟩
    · split at h
      · split at h
        · exact visibilityRecheck_ok _ _ _ _ _ _ _ _ h
        · exact visibilityRecheck_ok _ _ _ _ _ _ _ _ h
      · simp only [Except.ok.injEq, Prod.mk.injEq] at h
        obtain ⟨h1, _⟩ := h
        subst h1
        exact ⟨Or.inl rfl, strExt3 _ _ _ _, fun k _ _ => rfl⟩

/-- The protected block preserves or downgrades the result, appends to
the comment and leaves changes untouched. -/
theorem protCheck_spec (test : Bool) (prot : ProtParam) (ret : Ret) (image : Image) :
    ((protCheck test prot ret image).result = ret.result ∨
     (protCheck test prot ret image).result = failRes test) ∧
    (∃ d, (protCheck test prot ret image).comment = ret.comment ++ d) ∧
    (protCheck test prot ret image).changes = ret.changes := by
  unfold protCheck
  split
  · exact ⟨Or.inl rfl, ⟨"", by simp⟩, rfl⟩
  · split
    · exact ⟨Or.inr rfl, strExt5 _ _ _ _ _ _, rfl⟩
    · exact ⟨Or.inl rfl, strExt3 _ _ _ _, rfl⟩
  · exact ⟨Or.inr rfl, strExt5 _ _ _ _ _ _, rfl⟩

/-- The active-status comparison returns its calls argument unchanged. -/
theorem activeChecksumV1_calls (test : Bool) (c : String) (ret : Ret)
    (image2 : Image) (cs : List Call) :
    (activeChecksumV1 test c ret image2 cs).2 = cs := by
  unfold activeChecksumV1
  split
  · split <;> rfl
  · split <;> rfl

/-- A successful active-status comparison preserves or downgrades the
result, appends to the comment and leaves changes untouched. -/
theorem activeChecksumV1_ok (test : Bool) (c : String) (ret : Ret)
    (image2 : Image) (cs : List Call) (ret4 : Ret)
    (h : (activeChecksumV1 test c ret image2 cs).1 = Except.ok ret4) :
    (ret4.result = ret.result ∨ ret4.result = failRes test) ∧
    (∃ d, ret4.comment = ret.comment ++ d) ∧
    ret4.changes = ret.changes := by
  unfold activeChecksumV1 at h
  split at h
  · split at h
    · simp at h
    · simp only [Except.ok.injEq] at h
      subst h
      exact ⟨Or.inr rfl, strExt4 _ _ _ _ _, rfl⟩
  · split at h
    · simp only [Except.ok.injEq] at h
      subst h
      exact ⟨Or.inr rfl, strExt5 _ _ _ _ _ _, rfl⟩
    · simp only [Except.ok.injEq] at h
      subst h
      exact ⟨Or.inl rfl, strExt3 _ _ _ _, rfl⟩

/-- The calls of the checksum block of image_present: at most one
image_show. -/
theorem presentChecksumCheck_calls (test : Bool) (c : Option String) (shown : Image)
    (ret : Ret) (image : Image) :
    (presentChecksumCheck test c shown ret image).2 = [] ∨
    (presentChecksumCheck test c shown ret image).2 = [Call.imageShow] := by
  unfold presentChecksumCheck
  split
  · split
    · simp
    · split
      · split
        · rw [activeChecksumV1_calls]
          exact Or.inr rfl
        · rw [activeChecksumV1_calls]
          exact Or.inl rfl
      · split
        · simp
        · simp
  · simp

/-- A successful checksum block of image_present preserves or downgrades
the result, appends to the comment and leaves changes untouched. -/
theorem presentChecksumCheck_ok (test : Bool) (c : Option String) (shown : Image)
    (ret : Ret) (image : Image) (ret4 : Ret)
    (h : (presentChecksumCheck test c shown ret image).1 = Except.ok ret4) :
    (ret4.result = ret.result ∨ ret4.result = failRes test) ∧
    (∃ d, ret4.comment = ret.comment ++ d) ∧
    ret4.changes = ret.changes := by
  unfold presentChecksumCheck at h
  split at h
  · split at h
    · simp only [Except.ok.injEq] at h
      subst h
      exact ⟨Or.inl rfl, ⟨"", by simp⟩, rfl⟩
    · split at h
      · split at h
        · exact activeChecksumV1_ok _ _ _ _ _ _ h
        · exact activeChecksumV1_ok _ _ _ _ _ _ h
      · split at h
        · simp only [Except.ok.injEq] at h
          subst h
          exact ⟨Or.inl rfl, strExt2 _ _ _, rfl⟩
        · simp only [Except.ok.injEq] at h
          subst h
          exact ⟨Or.inl rfl, ⟨"", by simp⟩, rfl⟩
  · simp only [Except.ok.injEq] at h
    subst h
    exact ⟨Or.inl rfl, ⟨"", by simp⟩, rfl⟩

/-- A successful run of the attribute checks preserves or downgrades the
result, appends to the comment, and leaves the nested changes entries
under any key other than new and old untouched except for the status
leaf. -/
theorem presentChecks_ok (test : Bool) (name : String) (v : Option String)
    (prot : ProtParam) (c : Option String) (updated shown : Image)
    (ret : Ret) (image : Image) (r : Ret)
    (h : (presentChecks test name v prot c updated shown ret image).1 = Except.ok r) :
    (r.result = ret.result ∨ r.result = failRes test) ∧
    (∃ d, r.comment = ret.comment ++ d) ∧
    (∀ k, k ≠ "new" → k ≠ "old" → ∀ b, b ≠ "status" →
      getPath3 r.changes k "new" b = getPath3 ret.changes k "new" b) := by
  unfold presentChecks at h
  split at h
  · simp at h
  next ret1 hstamp =>
    split at h
    · simp at h
    next ret2 image2 cs hvis =>
      split at h
      · simp at h
      next ret4 cs2 hchk =>
        simp only [Except.ok.injEq] at h
        subst h
        obtain ⟨s1, c1, g1⟩ := statusStamp_ok _ _ _ _ hstamp
        have hv1 : (visibilityCheck test v updated ret1 image).1 = Except.ok (ret2, image2) := by
          rw [hvis]
        obtain ⟨s2, c2, g2⟩ := visibilityCheck_ok _ _ _ _ _ _ _ hv1
        obtain ⟨s3, c3, g3⟩ := protCheck_spec test prot ret2 image2
        have hc1 : (presentChecksumCheck test c shown (protCheck test prot ret2 image2) image2).1
            = Except.ok ret4 := by
          rw [hchk]
        obtain ⟨s4, c4, g4⟩ := presentChecksumCheck_ok _ _ _ _ _ _ hc1
        refine ⟨?_, ?_, ?_⟩
        · rcases s4 with e4 | e4
          · rw [e4]
            rcases s3 with e3 | e3
            · rw [e3]
              rcases s2 with e2 | e2
              · rw [e2, s1]
                exact Or.inl rfl
              · rw [e2]
                exact Or.inr rfl
            · rw [e3]
              exact Or.inr rfl
          · rw [e4]
            exact Or.inr rfl
        · obtain ⟨d4, e4⟩ := c4
          obtain ⟨d3, e3⟩ := c3
          obtain ⟨d2, e2⟩ := c2
          refine ⟨d2 ++ (d3 ++ d4), ?_⟩
          rw [e4, e3, e2, c1]
          simp only [String.append_assoc]
        · intro k hk1 hk2 b hb
          rw [g4, g3]
          have := getPath3_congr ret1.changes ret2.changes k "new" b (g2 k hk1 hk2)
          rw [this]
          exact g1 k b hb

/-- The calls of the attribute checks: only image_update and image_show,
and only image_show under the test flag. -/
theorem presentChecks_calls (test : Bool) (name : String) (v : Option String)
    (prot : ProtParam) (c : Option String) (updated shown : Image)
    (ret : Ret) (image : Image) :
    (∀ x ∈ (presentChecks test name v prot c updated shown ret image).2,
      x = Call.imageUpdate ∨ x = Call.imageShow) ∧
    (test = true → ∀ x ∈ (presentChecks test name v prot c updated shown ret image).2,
      x = Call.imageShow) := by
  unfold presentChecks
  split
  · simp
  next ret1 hstamp =>
    split
    next e cs hvis =>
      have hcs : cs = (visibilityCheck test v updated ret1 image).2 := by rw [hvis]
      obtain ⟨hv1, hv2⟩ := visibilityCheck_calls test v updated ret1 image
      subst hcs
      constructor
      · intro x hx
        rcases hv1 with e1 | e1 <;> rw [e1] at hx <;> simp at hx
        simp [hx]
      · intro ht x hx
        rw [hv2 ht] at hx
        simp at hx
    next ret2 image2 cs hvis =>
      have hcs : cs = (visibilityCheck test v updated ret1 image).2 := by rw [hvis]
      obtain ⟨hv1, hv2⟩ := visibilityCheck_calls test v updated ret1 image
      split
      next e cs2 hchk =>
        have hcs2 : cs2 = (presentChecksumCheck test c shown
            (protCheck test prot ret2 image2) image2).2 := by rw [hchk]
        have hc1 := presentChecksumCheck_calls test c shown
          (protCheck test prot ret2 image2) image2
        constructor
        · intro x hx
          simp only [List.mem_append] at hx
          rcases hx with hx | hx
          · rw [hcs] at hx
            rcases hv1 with e1 | e1 <;> rw [e1] at hx <;> simp at hx
            simp [hx]
          · rw [hcs2] at hx
            rcases hc1 with e1 | e1 <;> rw [e1] at hx <;> simp at hx
            simp [hx]
        · intro ht x hx
          simp only [List.mem_append] at hx
          rcases hx with hx | hx
          · rw [hcs, hv2 ht] at hx
            simp at hx
          · rw [hcs2] at hx
            rcases hc1 with e1 | e1 <;> rw [e1] at hx <;> simp at hx
            simp [hx]
      next ret4 cs2 hchk =>
        have hcs2 : cs2 = (presentChecksumCheck test c shown
            (protCheck test prot ret2 image2) image2).2 := by rw [hchk]
        have hc1 := presentChecksumCheck_calls test c shown
          (protCheck test prot ret2 image2) image2
        constructor
        · intro x hx
          simp only [List.mem_append] at hx
          rcases hx with hx | hx
          · rw [hcs] at hx
            rcases hv1 with e1 | e1 <;> rw [e1] at hx <;> simp at hx
            simp [hx]
          · rw [hcs2] at hx
            rcases hc1 with e1 | e1 <;> rw [e1] at hx <;> simp at hx
            simp [hx]
        · intro ht x hx
          simp only [List.mem_append] at hx
          rcases hx with hx | hx
          · rw [hcs, hv2 ht] at hx
            simp at hx
          · rw [hcs2] at hx
            rcases hc1 with e1 | e1 <;> rw [e1] at hx <;> simp at hx
            simp [hx]

/-- Shared concrete image fixtures for witnesses. -/
def imgActivePriv : Image := ⟨"i-1", "img1", some "active", "private", false, none⟩

def imgActivePub : Image := ⟨"i-1", "img1", some "active", "public", false, none⟩

def imgQueuedPub : Image := ⟨"i-9", "img1", some "queued", "public", false, none⟩

def imgDummy : Image := ⟨"d", "d", none, "public", false, none⟩

/-- C3: in image_present the acceptable status set for the post-create
poll is the suffix of the ordered list queued, saving, active starting at
the floor: saving when neither wait_for nor checksum is given, active when
only checksum is given, and wait_for itself when given as one of the three
statuses. -/
theorem c3_acceptable_suffix (c : String) (co : Option String) (w : String)
    (hw : w ∈ ["queued", "saving", "active"]) :
    computeAcceptable none none = ["saving", "active"] ∧
    computeAcceptable none (some c) = ["active"] ∧
    computeAcceptable (some w) co =
      ["queued", "saving", "active"].dropWhile (fun x => x ≠ w) := by
  refine ⟨by decide, ?_, ?_⟩
  · simp [computeAcceptable, effectiveWaitFor, popUntil]
  · have hw2 : w = "queued" ∨ w = "saving" ∨ w = "active" := by simpa using hw
    rcases hw2 with hw2 | hw2 | hw2 <;>
      subst hw2 <;>
      simp [computeAcceptable, effectiveWaitFor, popUntil]

/-- Witness for C3 at concrete inputs. -/
theorem c3_witness :
    computeAcceptable none none = ["saving", "active"] ∧
    computeAcceptable none (some "abc") = ["active"] ∧
    computeAcceptable (some "queued") none =
      ["queued", "saving", "active"].dropWhile (fun x => x ≠ "queued") :=
  c3_acceptable_suffix "abc" none "queued" (by decide)

/-- C9: both poll loops are bounded: the number of backend re-queries is
at most the ceiling of the timer divided by the fixed step 5, and with
timeout 10 at most 2 re-queries happen. -/
theorem c9_poll_bounded :
    (∀ (acc : List String) (name : String) (polls : Nat → ListResult)
      (timer : Int) (image : Image) (k : Nat),
      (pollLoop acc name polls timer image k).2 ≤ (timer.toNat + 4) / 5) ∧
    (∀ (tls : Nat → List (String × Task)) (task_id : String) (timer : Int)
      (task : Task) (k : Nat),
      (taskPoll tls task_id timer task k).2 ≤ (timer.toNat + 4) / 5) ∧
    (∀ (acc : List String) (name : String) (polls : Nat → ListResult)
      (image : Image) (k : Nat),
      (pollLoop acc name polls 10 image k).2 ≤ 2) ∧
    (∀ (tls : Nat → List (String × Task)) (task_id : String) (task : Task) (k : Nat),
      (taskPoll tls task_id 10 task k).2 ≤ 2) := by
  refine ⟨fun acc name polls timer image k => pollLoop_queries_le acc name polls timer image k,
    fun tls task_id timer task k => taskPoll_queries_le tls task_id timer task k,
    fun acc name polls image k => ?_, fun tls task_id task k => ?_⟩
  · have := pollLoop_queries_le acc name polls 10 image k
    omega
  · have := taskPoll_queries_le tls task_id 10 task k
    omega

/-- Image properties fixture accepted by the validator. -/
def propsOk : ImageProps := ⟨none, "bare", "raw", TagsParam.noneT⟩

/-- Module environment fixture. -/
def modEnv0 : ModEnv := ⟨[]⟩

/-- C5 fails on the code: validate_task_params embodies exactly the
documented rejections (unsupported task type, missing required import
parameters, non-remote import_from), but task_create never invokes it: it
submits every request, however invalid, to the backend and raises no
SaltInvocationError from validation. -/
theorem c5_task_create_never_validates :
    (∃ e, validate_task_params "export"
      ⟨some "http://h/x", some "raw", some propsOk⟩ = Except.error e) ∧
    (∃ e, validate_task_params "import"
      ⟨none, some "raw", some propsOk⟩ = Except.error e) ∧
    (∃ e, validate_task_params "import"
      ⟨some "file:///tmp/img", some "raw", some propsOk⟩ = Except.error e) ∧
    (∀ (task_type : String) (input_params : TaskInput) (env : ModEnv),
      (task_create task_type input_params env).2.contains ModCall.tasksCreateBackend = true) ∧
    (task_create "export" ⟨some "file:///tmp/img", some "raw", some propsOk⟩ modEnv0 =
      (modEnv0.shownTask,
       [ModCall.auth, ModCall.tasksCreateBackend, ModCall.auth,
        ModCall.tasksGetBackend, ModCall.auth, ModCall.schemasGetBackend])) := by
  refine ⟨⟨_, rfl⟩, ⟨_, rfl⟩, ⟨_, rfl⟩, fun task_type input_params env => rfl, rfl⟩

/-- Arguments fixture: desired public visibility, a source location, no
checksum, defaults otherwise. -/
def argsVis : PresentArgs :=
  ⟨"img1", some "public", ProtParam.noneP, none, some "http://src/x", none, 30⟩

/-- Environment fixture: one existing image with mismatched visibility,
real mode, the update call repairing it. -/
def envVis : Env :=
  ⟨false, ListResult.ok [imgActivePriv], imgDummy, fun _ => ListResult.ok [],
    imgActivePub, imgDummy⟩

/-- C8 fails on the code: after a repaired visibility mismatch the changes
dict maps the top-level keys new and old to the attribute snapshots (the
source writes ret changes new at lines 199 to 206) and holds no entry for
the image name at all, while the creation path does key by name. -/
theorem c8_changes_not_keyed_by_name :
    image_present argsVis envVis =
      (Except.ok ⟨"img1",
        [("new", JVal.obj [("visibility", JVal.s "public")]),
         ("old", JVal.obj [("visibility", JVal.s "private")])],
        RVal.t, ""⟩,
       [Call.imageList, Call.imageUpdate]) ∧
    hasKey [(("new" : String), JVal.obj [("visibility", JVal.s "public")]),
            (("old" : String), JVal.obj [("visibility", JVal.s "private")])] "img1" = false :=
  ⟨rfl, rfl⟩

/-- C1: an ambiguous initial lookup (more than one image matches) makes
both reconcilers return the ambiguity message as the comment with result
False in real mode and None under dry-run, and the result is never True. -/
theorem c1_ambiguous_never_true (a : PresentArgs) (env : Env) (ai : ImportArgs)
    (envi : ImportEnv) (x y : Image) (rest : List Image) (x2 y2 : Image)
    (rest2 : List Image)
    (h : env.list0 = ListResult.ok (x :: y :: rest))
    (h2 : envi.list0 = ListResult.ok (x2 :: y2 :: rest2)) :
    (image_present a env).1 = Except.ok ⟨a.name, [], failRes env.test,
      "Found more than one image with given name"⟩ ∧
    (image_import ai envi).1 = Except.ok ⟨ai.name, [], failRes envi.test,
      "Found more than one image with given name"⟩ ∧
    failRes env.test ≠ RVal.t ∧ failRes envi.test ≠ RVal.t := by
  have hf : find_image a.name env.list0 =
      (FindRes.fls, "Found more than one image with given name") := by
    rw [h]
    simp [find_image]
  have hf2 : find_image ai.name envi.list0 =
      (FindRes.fls, "Found more than one image with given name") := by
    rw [h2]
    simp [find_image]
  refine ⟨?_, ?_, ?_, ?_⟩
  · simp [image_present, hf]
  · simp [image_import, hf2]
  · cases htest : env.test <;> simp [failRes]
  · cases htest : envi.test <;> simp [failRes]

/-- Witness for C1 at concrete inputs. -/
theorem c1_witness :
    (image_present argsVis
      ⟨false, ListResult.ok [imgActivePriv, imgActivePub], imgDummy,
        fun _ => ListResult.ok [], imgDummy, imgDummy⟩).1 =
      Except.ok ⟨"img1", [], failRes false, "Found more than one image with given name"⟩ ∧
    (image_import ⟨"img2", none, none, 30⟩
      ⟨true, ListResult.ok [imgActivePriv, imgActivePub], ⟨"t", none⟩,
        fun _ => [], ListResult.ok [], imgDummy⟩).1 =
      Except.ok ⟨"img2", [], failRes true, "Found more than one image with given name"⟩ ∧
    failRes false ≠ RVal.t ∧ failRes true ≠ RVal.t :=
  c1_ambiguous_never_true _ _ _ _ imgActivePriv imgActivePub [] imgActivePriv
    imgActivePub [] rfl rfl

/-- C6: a poll that observes task status failure stops at once: the loop
performs no further task_list query, and image_import returns result False
with the comment naming the task id and has failed, the backend trace
ending at the task creation. -/
theorem c6_task_failure_stops (tls : Nat → List (String × Task)) (task_id : String)
    (timer : Int) (task : Task) (k : Nat) (a : ImportArgs) (env : ImportEnv)
    (m : String)
    (h1 : ¬ timer ≤ 0) (h2 : task.status = some "failure")
    (h3 : env.test = false) (h4 : find_image a.name env.list0 = (FindRes.nf, m))
    (h5 : env.createdTask.status = some "failure") (h6 : 0 < a.timeout) :
    taskPoll tls task_id timer task k = (TaskPollRes.failed, 0) ∧
    image_import a env =
      (Except.ok ⟨a.name,
        [(a.name, JVal.obj [("new", JVal.obj [("task_id", JVal.s env.createdTask.id)]),
          ("old", JVal.null)])],
        RVal.f, "Task " ++ env.createdTask.id ++ " has failed"⟩,
       [Call.imageList, Call.taskCreate]) := by
  refine ⟨taskPoll_failed _ _ _ _ _ h1 h2, ?_⟩
  have hp := taskPoll_failed env.taskLists env.createdTask.id a.timeout
    env.createdTask 0 (by omega) h5
  simp [image_import, h4, h3, hp]

/-- Witness for C6 at concrete inputs. -/
theorem c6_witness :
    taskPoll (fun _ => []) "t-1" 30 ⟨"t-1", some "failure"⟩ 0 = (TaskPollRes.failed, 0) ∧
    image_import ⟨"img2", some "http://a/b", none, 30⟩
      ⟨false, ListResult.ok [], ⟨"t-1", some "failure"⟩, fun _ => [],
        ListResult.ok [], imgDummy⟩ =
      (Except.ok ⟨"img2",
        [("img2", JVal.obj [("new", JVal.obj [("task_id", JVal.s "t-1")]),
          ("old", JVal.null)])],
        RVal.f, "Task " ++ "t-1" ++ " has failed"⟩,
       [Call.imageList, Call.taskCreate]) :=
  c6_task_failure_stops (fun _ => []) "t-1" 30 ⟨"t-1", some "failure"⟩ 0
    ⟨"img2", some "http://a/b", none, 30⟩
    ⟨false, ListResult.ok [], ⟨"t-1", some "failure"⟩, fun _ => [],
      ListResult.ok [], imgDummy⟩
    "No image with name \"img2\"" (by decide) rfl rfl rfl rfl (by decide)

/-- C10: during the creation poll of image_present, every re-lookup
outcome that is not exactly one image (none, more than one, or an
Unauthorized error) takes the same branch: result False and the vanished
comment followed by the lookup message, with no distinct handling. -/
theorem c10_midpoll_vanish (a : PresentArgs) (env : Env) (m vmsg : String)
    (r : FindRes) (loc : String)
    (h1 : env.test = false) (h2 : find_image a.name env.list0 = (FindRes.nf, m))
    (h3 : a.location = some loc) (h4 : 0 < a.timeout)
    (h5 : statusAcceptable env.created (computeAcceptable a.wait_for a.checksum) = false)
    (h6 : find_image a.name (env.polls 0) = (r, vmsg))
    (h7 : ∀ i, r ≠ FindRes.img i) :
    image_present a env =
      (Except.ok ⟨a.name,
        [(a.name, JVal.obj [("new", JVal.obj [("id", JVal.s env.created.id)]),
          ("old", JVal.null)])],
        RVal.f, "Created image " ++ a.name ++ "  vanished:\n" ++ vmsg⟩,
       [Call.imageList, Call.imageCreate, Call.imageList]) := by
  have hp := pollLoop_vanish (computeAcceptable a.wait_for a.checksum) a.name
    env.polls a.timeout env.created 0 r vmsg (by omega) h5 h6 h7
  simp [image_present, h2, h3, h1, hp, List.replicate]

/-- Witness for C10 at concrete inputs: the first re-lookup returns two
matches (the ambiguous outcome). -/
theorem c10_witness :
    image_present argsVis
      ⟨false, ListResult.ok [], imgQueuedPub,
        fun _ => ListResult.ok [imgActivePriv, imgActivePub], imgDummy, imgDummy⟩ =
      (Except.ok ⟨"img1",
        [("img1", JVal.obj [("new", JVal.obj [("id", JVal.s "i-9")]),
          ("old", JVal.null)])],
        RVal.f, "Created image " ++ "img1" ++ "  vanished:\n" ++
          "Found more than one image with given name"⟩,
       [Call.imageList, Call.imageCreate, Call.imageList]) :=
  c10_midpoll_vanish argsVis
    ⟨false, ListResult.ok [], imgQueuedPub,
      fun _ => ListResult.ok [imgActivePriv, imgActivePub], imgDummy, imgDummy⟩
    "No image with name \"img1\"" "Found more than one image with given name"
    FindRes.fls "http://src/x" rfl rfl rfl (by decide) (by decide) rfl
    (fun i h => FindRes.noConfusion h)

/-- C4: with a truthy checksum requested and an observed status, both
checksum blocks compare if and only if the status is active: on saving or
queued only the informational line is appended and result and calls are
untouched; on any other non-active status nothing happens at all; on
active with a present differing checksum the result is downgraded. -/
theorem c4_checksum_iff_active (test : Bool) (shown : Image) (ret : Ret)
    (image : Image) (c s x : String) (hc : c ≠ "") (hst : image.status = some s) :
    (s = "saving" ∨ s = "queued" →
      presentChecksumCheck test (some c) shown ret image =
        (Except.ok { ret with
          comment := ret.comment ++
            "Checksum won\x27t be verified as image " ++
            "hasn\x27t reached\n\t \"status=active\" yet.\n" }, []) ∧
      checksumCheckV2 test (some c) shown ret image =
        (Except.ok { ret with
          comment := ret.comment ++
            "Checksum will not be verified as image has not " ++
            "reached \x27status=active\x27 yet.\n" }, [])) ∧
    (s ≠ "active" →
      (∃ r1, presentChecksumCheck test (some c) shown ret image = (Except.ok r1, []) ∧
        r1.result = ret.result) ∧
      (∃ r2, checksumCheckV2 test (some c) shown ret image = (Except.ok r2, []) ∧
        r2.result = ret.result)) ∧
    (s = "active" → image.checksum = some x → x ≠ c →
      presentChecksumCheck test (some c) shown ret image =
        (Except.ok { ret with
          result := failRes test,
          comment := ret.comment ++ "\"checksum\" is " ++ x ++ ", should be " ++
            c ++ ".\n" }, []) ∧
      checksumCheckV2 test (some c) shown ret image =
        (Except.ok { ret with
          result := failRes test,
          comment := ret.comment ++ "\x27checksum\x27 is " ++ x ++ ", should be " ++
            c ++ ".\n" }, [])) := by
  refine ⟨?_, ?_, ?_⟩
  · intro hs
    have hsa : s ≠ "active" := by
      rcases hs with hs | hs <;> subst hs <;> decide
    constructor
    · simp [presentChecksumCheck, hst, hc, hsa, hs]
    · simp [checksumCheckV2, hst, hc, hsa, hs]
  · intro hsa
    by_cases hs : s = "saving" ∨ s = "queued"
    · refine ⟨⟨{ ret with
          comment := ret.comment ++ "Checksum won\x27t be verified as image " ++
            "hasn\x27t reached\n\t \"status=active\" yet.\n" },
        by simp [presentChecksumCheck, hst, hc, hsa, hs], rfl⟩,
        ⟨{ ret with
          comment := ret.comment ++ "Checksum will not be verified as image has not " ++
            "reached \x27status=active\x27 yet.\n" },
        by simp [checksumCheckV2, hst, hc, hsa, hs], rfl⟩⟩
    · refine ⟨⟨ret, by simp [presentChecksumCheck, hst, hc, hsa, hs], rfl⟩,
        ⟨ret, by simp [checksumCheckV2, hst, hc, hsa, hs], rfl⟩⟩
  · intro hs hx hxc
    subst hs
    constructor
    · simp [presentChecksumCheck, hst, hc, hx, hxc, activeChecksumV1]
    · simp [checksumCheckV2, hst, hc, hx, hxc, activeChecksumV2]

/-- Witness for C4 at concrete inputs: status saving, checksum requested
and mismatched. -/
theorem c4_witness :
    (("saving" : String) = "saving" ∨ ("saving" : String) = "queued" →
      presentChecksumCheck false (some "aa") imgDummy ⟨"img1", [], RVal.t, ""⟩
          ⟨"i-2", "img1", some "saving", "public", false, some "bb"⟩ =
        (Except.ok { (⟨"img1", [], RVal.t, ""⟩ : Ret) with
          comment := "" ++
            "Checksum won\x27t be verified as image " ++
            "hasn\x27t reached\n\t \"status=active\" yet.\n" }, []) ∧
      checksumCheckV2 false (some "aa") imgDummy ⟨"img1", [], RVal.t, ""⟩
          ⟨"i-2", "img1", some "saving", "public", false, some "bb"⟩ =
        (Except.ok { (⟨"img1", [], RVal.t, ""⟩ : Ret) with
          comment := "" ++
            "Checksum will not be verified as image has not " ++
            "reached \x27status=active\x27 yet.\n" }, [])) ∧
    (("saving" : String) ≠ "active" →
      (∃ r1, presentChecksumCheck false (some "aa") imgDummy ⟨"img1", [], RVal.t, ""⟩
          ⟨"i-2", "img1", some "saving", "public", false, some "bb"⟩ = (Except.ok r1, []) ∧
        r1.result = RVal.t) ∧
      (∃ r2, checksumCheckV2 false (some "aa") imgDummy ⟨"img1", [], RVal.t, ""⟩
          ⟨"i-2", "img1", some "saving", "public", false, some "bb"⟩ = (Except.ok r2, []) ∧
        r2.result = RVal.t)) ∧
    (("saving" : String) = "active" →
      (⟨"i-2", "img1", some "saving", "public", false, some "bb"⟩ : Image).checksum = some "bb" →
      ("bb" : String) ≠ "aa" →
      presentChecksumCheck false (some "aa") imgDummy ⟨"img1", [], RVal.t, ""⟩
          ⟨"i-2", "img1", some "saving", "public", false, some "bb"⟩ =
        (Except.ok { (⟨"img1", [], RVal.t, ""⟩ : Ret) with
          result := failRes false,
          comment := "" ++ "\"checksum\" is " ++ "bb" ++ ", should be " ++
            "aa" ++ ".\n" }, []) ∧
      checksumCheckV2 false (some "aa") imgDummy ⟨"img1", [], RVal.t, ""⟩
          ⟨"i-2", "img1", some "saving", "public", false, some "bb"⟩ =
        (Except.ok { (⟨"img1", [], RVal.t, ""⟩ : Ret) with
          result := failRes false,
          comment := "" ++ "\x27checksum\x27 is " ++ "bb" ++ ", should be " ++
            "aa" ++ ".\n" }, [])) :=
  c4_checksum_iff_active false imgDummy ⟨"img1", [], RVal.t, ""⟩
    ⟨"i-2", "img1", some "saving", "public", false, some "bb"⟩
    "aa" "saving" "bb" (by decide) rfl

/-- C2: under dry-run neither reconciler issues a create or update backend
call (image_create, image_update or task_create), and a returned result
field is never False, only True or None. -/
theorem c2_dry_run_frame (a : PresentArgs) (env : Env) (ai : ImportArgs)
    (envi : ImportEnv) (h1 : env.test = true) (h2 : envi.test = true) :
    (∀ x ∈ (image_present a env).2, isWriteCall x = false) ∧
    (∀ r, (image_present a env).1 = Except.ok r →
      r.result = RVal.t ∨ r.result = RVal.n) ∧
    (∀ x ∈ (image_import ai envi).2, isWriteCall x = false) ∧
    (∀ r, (image_import ai envi).1 = Except.ok r →
      r.result = RVal.t ∨ r.result = RVal.n) := by
  have hP : (∀ x ∈ (image_present a env).2, isWriteCall x = false) ∧
      (∀ r, (image_present a env).1 = Except.ok r →
        r.result = RVal.t ∨ r.result = RVal.n) := by
    rcases hf : find_image a.name env.list0 with ⟨res, msg⟩
    cases res with
    | fls =>
        have he : image_present a env =
            (Except.ok ⟨a.name, [], failRes env.test, msg⟩, [Call.imageList]) := by
          simp [image_present, hf]
        rw [he]
        refine ⟨?_, ?_⟩
        · intro x hx
          simp at hx
          subst hx
          rfl
        · intro r hr
          simp only [Except.ok.injEq] at hr
          subst hr
          simp [failRes, h1]
    | nf =>
        rcases hl : a.location with _ | loc
        · have he : image_present a env =
              (Except.ok ⟨a.name, [], RVal.n,
                "No location to copy image from specified,\n" ++
                  "glance.image_present would not create one"⟩, [Call.imageList]) := by
            simp [image_present, hf, hl, h1]
          rw [he]
          refine ⟨?_, ?_⟩
          · intro x hx
            simp at hx
            subst hx
            rfl
          · intro r hr
            simp only [Except.ok.injEq] at hr
            subst hr
            simp
        · have he : image_present a env =
              (Except.ok ⟨a.name, [], RVal.n,
                "glance.image_present would create an image from " ++ loc⟩,
               [Call.imageList]) := by
            simp [image_present, hf, hl, h1]
          rw [he]
          refine ⟨?_, ?_⟩
          · intro x hx
            simp at hx
            subst hx
            rfl
          · intro r hr
            simp only [Except.ok.injEq] at hr
            subst hr
            simp
    | img i =>
        rcases hl : a.location with _ | loc
        · have he : image_present a env =
              (Except.ok ⟨a.name, [], RVal.n,
                "No location to copy image from specified,\n" ++
                  "glance.image_present would not create one"⟩, [Call.imageList]) := by
            simp [image_present, hf, hl, h1]
          rw [he]
          refine ⟨?_, ?_⟩
          · intro x hx
            simp at hx
            subst hx
            rfl
          · intro r hr
            simp only [Except.ok.injEq] at hr
            subst hr
            simp
        · have he : image_present a env =
              ((presentChecks env.test a.name a.visibility a.prot a.checksum
                  env.updated env.shown ⟨a.name, [], RVal.t, ""⟩ i).1,
               Call.imageList :: (presentChecks env.test a.name a.visibility a.prot
                  a.checksum env.updated env.shown ⟨a.name, [], RVal.t, ""⟩ i).2) := by
            simp [image_present, hf, hl]
          rw [he]
          refine ⟨?_, ?_⟩
          · intro x hx
            simp only [List.mem_cons] at hx
            rcases hx with hx | hx
            · subst hx
              rfl
            · have hc := (presentChecks_calls env.test a.name a.visibility a.prot
                a.checksum env.updated env.shown ⟨a.name, [], RVal.t, ""⟩ i).2 h1 x hx
              subst hc
              rfl
          · intro r hr
            obtain ⟨hres, _, _⟩ := presentChecks_ok _ _ _ _ _ _ _ _ _ _ hr
            rcases hres with e | e
            · exact Or.inl e
            · right
              rw [e, h1]
              rfl
  have hI : (∀ x ∈ (image_import ai envi).2, isWriteCall x = false) ∧
      (∀ r, (image_import ai envi).1 = Except.ok r →
        r.result = RVal.t ∨ r.result = RVal.n) := by
    rcases hf : find_image ai.name envi.list0 with ⟨res, msg⟩
    cases res with
    | img i =>
        have he : image_import ai envi =
            (Except.ok ⟨ai.name, [], RVal.t,
              "Image \"" ++ ai.name ++ "\" already exists"⟩, [Call.imageList]) := by
          simp [image_import, hf]
        rw [he]
        refine ⟨?_, ?_⟩
        · intro x hx
          simp at hx
          subst hx
          rfl
        · intro r hr
          simp only [Except.ok.injEq] at hr
          subst hr
          simp
    | fls =>
        have he : image_import ai envi =
            (Except.ok ⟨ai.name, [], failRes envi.test, msg⟩, [Call.imageList]) := by
          simp [image_import, hf]
        rw [he]
        refine ⟨?_, ?_⟩
        · intro x hx
          simp at hx
          subst hx
          rfl
        · intro r hr
          simp only [Except.ok.injEq] at hr
          subst hr
          simp [failRes, h2]
    | nf =>
        have he : image_import ai envi =
            (Except.ok ⟨ai.name, [], RVal.n,
              "glanceng.image_import would create an image from " ++
                fmtOptStr ai.location⟩, [Call.imageList]) := by
          simp [image_import, hf, h2]
        rw [he]
        refine ⟨?_, ?_⟩
        · intro x hx
          simp at hx
          subst hx
          rfl
        · intro r hr
          simp only [Except.ok.injEq] at hr
          subst hr
          simp
  exact ⟨hP.1, hP.2, hI.1, hI.2⟩

/-- Witness for C2 at concrete inputs: dry-run with an existing image and
a location for image_present, and an absent image for image_import. -/
theorem c2_witness :
    (∀ x ∈ (image_present argsVis
      ⟨true, ListResult.ok [imgActivePriv], imgDummy, fun _ => ListResult.ok [],
        imgActivePub, imgDummy⟩).2, isWriteCall x = false) ∧
    (∀ r, (image_present argsVis
      ⟨true, ListResult.ok [imgActivePriv], imgDummy, fun _ => ListResult.ok [],
        imgActivePub, imgDummy⟩).1 = Except.ok r →
      r.result = RVal.t ∨ r.result = RVal.n) ∧
    (∀ x ∈ (image_import ⟨"img2", some "http://a/b", none, 30⟩
      ⟨true, ListResult.ok [], ⟨"t-1", none⟩, fun _ => [],
        ListResult.ok [], imgDummy⟩).2, isWriteCall x = false) ∧
    (∀ r, (image_import ⟨"img2", some "http://a/b", none, 30⟩
      ⟨true, ListResult.ok [], ⟨"t-1", none⟩, fun _ => [],
        ListResult.ok [], imgDummy⟩).1 = Except.ok r →
      r.result = RVal.t ∨ r.result = RVal.n) :=
  c2_dry_run_frame argsVis
    ⟨true, ListResult.ok [imgActivePriv], imgDummy, fun _ => ListResult.ok [],
      imgActivePub, imgDummy⟩
    ⟨"img2", some "http://a/b", none, 30⟩
    ⟨true, ListResult.ok [], ⟨"t-1", none⟩, fun _ => [],
      ListResult.ok [], imgDummy⟩ rfl rfl

/-- A nested assignment under a key bound to a dict object succeeds. -/
theorem setKey2_ok_of_obj (d : Dct) (k1 k2 : String) (v : JVal) (d1 : Dct)
    (h : getKey d k1 = some (JVal.obj d1)) :
    setKey2 d k1 k2 v = Except.ok (setKey d k1 (JVal.obj (setKey d1 k2 v))) := by
  unfold setKey2
  rw [h]

/-- Every value of the dict is itself a dict object. -/
def objVals (d : Dct) : Prop :=
  ∀ k v, getKey d k = some v → ∃ o, v = JVal.obj o

/-- Assigning a dict object preserves the all-objects property. -/
theorem objVals_setKey (d : Dct) (k : String) (o : Dct) (h : objVals d) :
    objVals (setKey d k (JVal.obj o)) := by
  intro k2 v hv
  by_cases hk : k = k2
  · subst hk
    rw [getKey_setKey_self] at hv
    cases hv
    exact ⟨o, rfl⟩
  · rw [getKey_setKey_ne _ _ _ _ hk] at hv
    exact h k2 v hv

/-- The status stamp succeeds on a changes dict whose entry for the name
holds a dict with a dict under new, and preserves the all-objects
property. -/
theorem statusStamp_succeeds (name : String) (ret : Ret) (image : Image)
    (d1 d2 : Dct) (s : String)
    (hg : getKey ret.changes name = some (JVal.obj d1))
    (hg2 : getKey d1 "new" = some (JVal.obj d2))
    (hs : image.status = some s) (hobj : objVals ret.changes) :
    ∃ ret1, statusStamp name ret image = Except.ok ret1 ∧
      ret1.result = ret.result ∧ ret1.comment = ret.comment ∧
      objVals ret1.changes := by
  have hk : hasKey ret.changes name = true := by
    unfold hasKey
    rw [hg]
    rfl
  have hset : setKey3 ret.changes name "new" "status" (JVal.s s) =
      Except.ok (setKey ret.changes name
        (JVal.obj (setKey d1 "new" (JVal.obj (setKey d2 "status" (JVal.s s)))))) := by
    unfold setKey3
    rw [hg]
    simp [setKey2_ok_of_obj d1 "new" "status" (JVal.s s) d2 hg2]
  refine ⟨{ ret with
      changes := setKey ret.changes name
        (JVal.obj (setKey d1 "new" (JVal.obj (setKey d2 "status" (JVal.s s))))) },
    ?_, rfl, rfl, objVals_setKey _ _ _ hobj⟩
  unfold statusStamp
  simp [hk, hs, hset]

/-- The visibility re-check never errors when every changes value is a
dict object. -/
theorem visibilityRecheck_succeeds (test : Bool) (v old_value : String) (ret : Ret)
    (image2 : Image) (cs : List Call) (h : objVals ret.changes) :
    ∃ p, (visibilityRecheck test v old_value ret image2 cs).1 = Except.ok p := by
  unfold visibilityRecheck
  split
  · exact ⟨_, rfl⟩
  · have hnew : ∃ d1, (if hasKey ret.changes "new" then
        setKey2 ret.changes "new" "visibility" (JVal.s v)
      else
        Except.ok (setKey ret.changes "new" (JVal.obj [("visibility", JVal.s v)]))) =
        Except.ok d1 ∧ objVals d1 := by
      by_cases hh : hasKey ret.changes "new" = true
      · have hh2 : (getKey ret.changes "new").isSome = true := hh
        obtain ⟨w, hw⟩ := Option.isSome_iff_exists.mp hh2
        obtain ⟨o, ho⟩ := h _ _ hw
        subst ho
        rw [if_pos hh, setKey2_ok_of_obj _ _ _ _ _ hw]
        exact ⟨_, rfl, objVals_setKey _ _ _ h⟩
      · rw [if_neg hh]
        exact ⟨_, rfl, objVals_setKey _ _ _ h⟩
    obtain ⟨d1, hd1, hobj1⟩ := hnew
    simp only [hd1]
    have hold : ∃ d2, (if hasKey d1 "old" then
        setKey2 d1 "old" "visibility" (JVal.s old_value)
      else
        Except.ok (setKey d1 "old" (JVal.obj [("visibility", JVal.s old_value)]))) =
        Except.ok d2 := by
      by_cases hh : hasKey d1 "old" = true
      · have hh2 : (getKey d1 "old").isSome = true := hh
        obtain ⟨w, hw⟩ := Option.isSome_iff_exists.mp hh2
        obtain ⟨o, ho⟩ := hobj1 _ _ hw
        subst ho
        rw [if_pos hh, setKey2_ok_of_obj _ _ _ _ _ hw]
        exact ⟨_, rfl⟩
      · rw [if_neg hh]
        exact ⟨_, rfl⟩
    obtain ⟨d2, hd2⟩ := hold
    simp only [hd2]
    exact ⟨_, rfl⟩

/-- The visibility block never errors when every changes value is a dict
object. -/
theorem visibilityCheck_succeeds (test : Bool) (v : Option String) (updated : Image)
    (ret : Ret) (image : Image) (h : objVals ret.changes) :
    ∃ p, (visibilityCheck test v updated ret image).1 = Except.ok p := by
  unfold visibilityCheck
  split
  · exact ⟨_, rfl⟩
  · split
    · exact ⟨_, rfl⟩
    · split
      · split
        · exact visibilityRecheck_succeeds _ _ _ _ _ _ h
        · exact visibilityRecheck_succeeds _ _ _ _ _ _ h
      · exact ⟨_, rfl⟩

/-- The active-status comparison never errors when the record compared has
a checksum or a status key. -/
theorem activeChecksumV1_succeeds (test : Bool) (c : String) (ret : Ret)
    (image2 : Image) (cs : List Call)
    (h : image2.checksum ≠ none ∨ image2.status ≠ none) :
    ∃ r, (activeChecksumV1 test c ret image2 cs).1 = Except.ok r := by
  unfold activeChecksumV1
  rcases hck : image2.checksum with _ | x
  · simp only [hck]
    rcases hst : image2.status with _ | s2
    · rcases h with h | h
      · exact absurd hck h
      · exact absurd hst h
    · simp only [hst]
      exact ⟨_, rfl⟩
  · simp only [hck]
    split
    · exact ⟨_, rfl⟩
    · exact ⟨_, rfl⟩

/-- The checksum block of image_present never errors when the image_show
response carries a status key. -/
theorem presentChecksumCheck_succeeds (test : Bool) (c : Option String)
    (shown : Image) (ret : Ret) (image : Image) (hsh : shown.status ≠ none) :
    ∃ r, (presentChecksumCheck test c shown ret image).1 = Except.ok r := by
  unfold presentChecksumCheck
  split
  · split
    · exact ⟨_, rfl⟩
    · split
      · split
        · exact activeChecksumV1_succeeds _ _ _ _ _ (Or.inr hsh)
        next hck =>
          exact activeChecksumV1_succeeds _ _ _ _ _ (Or.inl hck)
      · split
        · exact ⟨_, rfl⟩
        · exact ⟨_, rfl⟩
  · exact ⟨_, rfl⟩

/-- The attribute checks of image_present never error when the changes
entry for the name is a dict with a dict under new, the image has a status
key and the image_show response carries a status key. -/
theorem presentChecks_succeeds (test : Bool) (name : String) (v : Option String)
    (prot : ProtParam) (c : Option String) (updated shown : Image) (ret : Ret)
    (image : Image) (d1 d2 : Dct) (s : String)
    (hg : getKey ret.changes name = some (JVal.obj d1))
    (hg2 : getKey d1 "new" = some (JVal.obj d2))
    (hs : image.status = some s) (hobj : objVals ret.changes)
    (hsh : shown.status ≠ none) :
    ∃ r, (presentChecks test name v prot c updated shown ret image).1 = Except.ok r := by
  obtain ⟨ret1, hstamp, _, _, hobj1⟩ :=
    statusStamp_succeeds name ret image d1 d2 s hg hg2 hs hobj
  unfold presentChecks
  rw [hstamp]
  obtain ⟨p, hvis⟩ := visibilityCheck_succeeds test v updated ret1 image hobj1
  rcases hvq : visibilityCheck test v updated ret1 image with ⟨ve, vcs⟩
  rw [hvq] at hvis
  simp only at hvis
  subst hvis
  obtain ⟨ret2, image2⟩ := p
  simp only [hvq]
  obtain ⟨r, hchk⟩ := presentChecksumCheck_succeeds test c shown
    (protCheck test prot ret2 image2) image2 hsh
  rcases hcq : presentChecksumCheck test c shown
    (protCheck test prot ret2 image2) image2 with ⟨ce, ccs⟩
  rw [hcq] at hchk
  simp only at hchk
  subst hchk
  simp only [hcq]
  exact ⟨r, rfl⟩

/-- C7 (amended): when the creation poll of image_present exhausts its
budget with a final observed record that carries a status outside the
acceptable set, and the image_show response carries a status key, the call
does not raise and does not return early: the result is downgraded to
False, the creation entry under the name is preserved in changes, and the
attribute checks still run, appending their lines after the timeout
comment. -/
theorem c7_timeout_downgrade_checks_run (a : PresentArgs) (env : Env)
    (m loc : String) (t : Int) (img : Image) (nq : Nat) (s : String)
    (h1 : env.test = false) (h2 : find_image a.name env.list0 = (FindRes.nf, m))
    (h3 : a.location = some loc)
    (h4 : pollLoop (computeAcceptable a.wait_for a.checksum) a.name env.polls
      a.timeout env.created 0 = (PollRes.done t img, nq))
    (h5 : t ≤ 0) (h6 : img.status = some s)
    (h7 : (computeAcceptable a.wait_for a.checksum).contains s = false)
    (h8 : a.name ≠ "new") (h9 : a.name ≠ "old")
    (h10 : env.shown.status ≠ none) :
    ∃ r, (image_present a env).1 = Except.ok r ∧
      (presentChecks env.test a.name a.visibility a.prot a.checksum env.updated
        env.shown
        ⟨a.name,
         [(a.name, JVal.obj [("new", JVal.obj [("id", JVal.s env.created.id)]),
           ("old", JVal.null)])],
         RVal.f,
         "Image didn\x27t reach an acceptable state (" ++
           pyStrList (computeAcceptable a.wait_for a.checksum) ++
           ") before timeout:\n" ++ "\tLast status was \"" ++ s ++ "\".\n"⟩
        img).1 = Except.ok r ∧
      r.result = RVal.f ∧
      (∃ tail, r.comment =
        "Image didn\x27t reach an acceptable state (" ++
          pyStrList (computeAcceptable a.wait_for a.checksum) ++
          ") before timeout:\n" ++ "\tLast status was \"" ++ s ++ "\".\n" ++ tail) ∧
      getPath3 r.changes a.name "new" "id" = some (JVal.s env.created.id) := by
  have hobj0 : objVals
      [(a.name, JVal.obj [("new", JVal.obj [("id", JVal.s env.created.id)]),
        ("old", JVal.null)])] := by
    intro k w hw
    unfold getKey at hw
    split at hw
    · cases hw
      exact ⟨_, rfl⟩
    · cases hw
  obtain ⟨r, hok⟩ := presentChecks_succeeds env.test a.name a.visibility a.prot
    a.checksum env.updated env.shown
    ⟨a.name,
     [(a.name, JVal.obj [("new", JVal.obj [("id", JVal.s env.created.id)]),
       ("old", JVal.null)])],
     RVal.f,
     "Image didn\x27t reach an acceptable state (" ++
       pyStrList (computeAcceptable a.wait_for a.checksum) ++
       ") before timeout:\n" ++ "\tLast status was \"" ++ s ++ "\".\n"⟩
    img
    [("new", JVal.obj [("id", JVal.s env.created.id)]), ("old", JVal.null)]
    [("id", JVal.s env.created.id)] s
    (by simp [getKey]) (by simp [getKey]) h6 hobj0 h10
  refine ⟨r, ?_, hok, ?_, ?_, ?_⟩
  · have hmain : (image_present a env).1 =
        (presentChecks env.test a.name a.visibility a.prot a.checksum env.updated
          env.shown
          ⟨a.name,
           [(a.name, JVal.obj [("new", JVal.obj [("id", JVal.s env.created.id)]),
             ("old", JVal.null)])],
           RVal.f,
           "Image didn\x27t reach an acceptable state (" ++
             pyStrList (computeAcceptable a.wait_for a.checksum) ++
             ") before timeout:\n" ++ "\tLast status was \"" ++ s ++ "\".\n"⟩
          img).1 := by
      have h7x : s ∉ computeAcceptable a.wait_for a.checksum := by
        simpa using h7
      simp [image_present, h2, h3, h1, h4, h5, h6, h7x]
    rw [hmain, hok]
  · obtain ⟨hres, _, _⟩ := presentChecks_ok _ _ _ _ _ _ _ _ _ _ hok
    rcases hres with e | e
    · exact e
    · rw [e, h1]
      rfl
  · obtain ⟨_, hcom, _⟩ := presentChecks_ok _ _ _ _ _ _ _ _ _ _ hok
    obtain ⟨d, hd⟩ := hcom
    exact ⟨d, by rw [hd]⟩
  · obtain ⟨_, _, hch⟩ := presentChecks_ok _ _ _ _ _ _ _ _ _ _ hok
    have := hch a.name h8 h9 "id" (by decide)
    rw [this]
    simp [getPath3, getKey]

/-- Witness for C7 at concrete inputs: timeout 5, the created image stays
queued, visibility already correct. -/
theorem c7_witness :
    ∃ r, (image_present ⟨"img1", some "public", ProtParam.noneP, none,
        some "http://src/x", none, 5⟩
      ⟨false, ListResult.ok [], imgQueuedPub, fun _ => ListResult.ok [imgQueuedPub],
        imgActivePub, imgActivePub⟩).1 = Except.ok r ∧
      (presentChecks false "img1" (some "public") ProtParam.noneP none
        imgActivePub imgActivePub
        ⟨"img1",
         [("img1", JVal.obj [("new", JVal.obj [("id", JVal.s "i-9")]),
           ("old", JVal.null)])],
         RVal.f,
         "Image didn\x27t reach an acceptable state (" ++
           pyStrList (computeAcceptable none none) ++
           ") before timeout:\n" ++ "\tLast status was \"" ++ "queued" ++ "\".\n"⟩
        imgQueuedPub).1 = Except.ok r ∧
      r.result = RVal.f ∧
      (∃ tail, r.comment =
        "Image didn\x27t reach an acceptable state (" ++
          pyStrList (computeAcceptable none none) ++
          ") before timeout:\n" ++ "\tLast status was \"" ++ "queued" ++ "\".\n" ++ tail) ∧
      getPath3 r.changes "img1" "new" "id" = some (JVal.s "i-9") :=
  c7_timeout_downgrade_checks_run
    ⟨"img1", some "public", ProtParam.noneP, none, some "http://src/x", none, 5⟩
    ⟨false, ListResult.ok [], imgQueuedPub, fun _ => ListResult.ok [imgQueuedPub],
      imgActivePub, imgActivePub⟩
    "No image with name \"img1\"" "http://src/x" 0 imgQueuedPub 1 "queued"
    rfl rfl rfl
    (by simp [pollLoop, statusAcceptable, find_image, computeAcceptable,
      effectiveWaitFor, popUntil, imgQueuedPub])
    (by decide) rfl (by decide) (by decide) (by decide) (by simp [imgActivePub])

/-- C7 as stated fails on the code: when the poll exhausts its budget on a
final record without a status key, the unguarded status read of line 161
raises (the embedding returns the error) instead of downgrading the
result. -/
theorem c7_counterexample :
    image_present ⟨"img1", some "public", ProtParam.noneP, none,
        some "http://src/x", none, 5⟩
      ⟨false, ListResult.ok [], ⟨"i-9", "img1", none, "public", false, none⟩,
        fun _ => ListResult.ok [⟨"i-9", "img1", none, "public", false, none⟩],
        imgDummy, imgDummy⟩ =
      (Except.error "KeyError: status",
       [Call.imageList, Call.imageCreate, Call.imageList]) := by
  simp [image_present, pollLoop, find_image, statusAcceptable, computeAcceptable,
    effectiveWaitFor, popUntil, List.replicate]

end Glance
